import Mathlib

/-!
Shallow embedding of the relationship-tracking backend (relatioBackend).

The data model mirrors the Mongoose schemas (`Relationship`, `Term`,
`Milestone`, `Activity`, `Certificate`), and each controller of the
relationship lifecycle engine and of the dependent-entity coordinators is
embedded as a pure function from its inputs (acting user, clock value,
request fields, the documents it loads) to an outcome record carrying the
HTTP status code, the response message, and the persisted document state.

Conventions:
* User ids and ObjectIds are `Nat`; dates are `Nat` clock values passed in
  as `now` (the embeddings of `new Date()` / `Date.now()`).
* The notification sink is external. Controllers that `await
  Notification.create(...)` inside their `try` block report a 500 server
  error when the sink fails, after their own writes have persisted;
  controllers that respond first and attach `.catch` to the notification
  promise are unaffected by sink failure. The Boolean `sinkOk` parameter
  selects whether the sink call succeeds.
* Mongoose validation relevant to the claims is embedded explicitly: the
  certificate schema marks `relatedTo` and `relatedId` as required, and
  the save pipeline rejects a document missing them; the unique index on
  `metadata.certificateNumber` rejects a save whose number is already
  present in the store.
-/

namespace Relatio

/-- `status` enumeration of relationshipSchema. -/
inductive RelStatus
  | pending
  | active
  | ended
  | archived
  | requestedBreakup
deriving DecidableEq, Repr

/-- The Relationship document (the fields the lifecycle engine and the
coordinators read or write). -/
structure Relationship where
  initiator : Nat
  partner : Nat
  rtype : String
  status : RelStatus
  breakupRequestedBy : Option Nat
  title : String
  description : String
  startDate : Nat
  acceptedDate : Option Nat
  endDate : Option Nat
  trustLevel : Int
  lastInteraction : Nat
  totalActivities : Int
  milestonesAchieved : Int
  latestCertificate : Option Nat
deriving DecidableEq, Repr

/-- relationshipSchema.methods.includesUser. -/
def includesUser (r : Relationship) (uid : Nat) : Bool :=
  r.initiator = uid || r.partner = uid

/-- relationshipSchema.methods.getPartner. -/
def getPartner (r : Relationship) (uid : Nat) : Nat :=
  if r.initiator = uid then r.partner else r.initiator

/-- A freshly proposed Relationship document, with the schema defaults
(status pending is set explicitly by the controller; trustLevel defaults
to 50, counters to 0, lastInteraction and startDate to `Date.now`). -/
def newRelationship (uid pid : Nat) (ti de ty : String) (now : Nat) : Relationship :=
  { initiator := uid
    partner := pid
    rtype := ty
    status := .pending
    breakupRequestedBy := none
    title := ti
    description := de
    startDate := now
    acceptedDate := none
    endDate := none
    trustLevel := 50
    lastInteraction := now
    totalActivities := 0
    milestonesAchieved := 0
    latestCertificate := none }

/-- The duplicate-pair test of createRelationship's `$or` query: a stored
relationship matches the pair `{a, b}` in either order. -/
def samePair (r : Relationship) (a b : Nat) : Bool :=
  (r.initiator = a && r.partner = b) || (r.initiator = b && r.partner = a)

/-- Outcome of a controller acting on a single Relationship document:
HTTP status code, response message, and the persisted document
(`none` when the document was deleted). -/
structure RelOutcome where
  code : Nat
  msg : String
  rel : Option Relationship
deriving DecidableEq, Repr

/-- Outcome of createRelationship: code, message, and the Relationship
collection after the call. -/
structure CreateOutcome where
  code : Nat
  msg : String
  db : List Relationship
deriving DecidableEq, Repr

/-- createRelationship (relationshipController). `partnerLookup` is the
Identity Directory's user-by-email result. The notification for the
partner is awaited inside the controller's try block, so a sink failure
surfaces as a 500 after the relationship has been saved. -/
def createRelationship (uid : Nat) (partnerLookup : Option Nat)
    (ti de ty : String) (now : Nat) (sinkOk : Bool)
    (db : List Relationship) : CreateOutcome :=
  match partnerLookup with
  | none => ⟨404, "User not found with this email", db⟩
  | some pid =>
    if pid = uid then
      ⟨400, "Cannot create relationship with yourself", db⟩
    else if db.any (fun r => samePair r uid pid) then
      ⟨400, "Relationship already exists", db⟩
    else
      let r := newRelationship uid pid ti de ty now
      if sinkOk then
        ⟨201, "Relationship invitation sent successfully", db ++ [r]⟩
      else
        ⟨500, "Server error during relationship creation", db ++ [r]⟩

/-- acceptRelationship: only the invited partner, only while pending;
sets status active and acceptedDate. The notification to the initiator is
awaited, so a sink failure yields a 500 after the save. -/
def acceptRelationship (uid now : Nat) (sinkOk : Bool) (r : Relationship) : RelOutcome :=
  if r.partner ≠ uid then
    ⟨403, "Only the invited partner can accept this relationship", some r⟩
  else if r.status ≠ .pending then
    ⟨400, "Relationship is not pending", some r⟩
  else
    let r' := { r with status := RelStatus.active, acceptedDate := some now }
    if sinkOk then ⟨200, "Relationship accepted successfully", some r'⟩
    else ⟨500, "Server error during relationship acceptance", some r'⟩

/-- declineRelationship: only the invited partner, only while pending;
deletes the document. The notification is awaited, so a sink failure
yields a 500 after the delete. -/
def declineRelationship (uid : Nat) (sinkOk : Bool) (r : Relationship) : RelOutcome :=
  if r.partner ≠ uid then
    ⟨403, "Only the invited partner can decline this relationship", some r⟩
  else if r.status ≠ .pending then
    ⟨400, "Relationship is not pending", some r⟩
  else if sinkOk then ⟨200, "Relationship declined successfully", none⟩
  else ⟨500, "Server error during relationship decline", none⟩

/-- deleteRelationship: archives (with endDate) when the relationship is
active, deletes otherwise. Sends no notification. -/
def deleteRelationship (uid now : Nat) (r : Relationship) : RelOutcome :=
  if !(includesUser r uid) then
    ⟨403, "Access denied", some r⟩
  else if r.status = .active then
    ⟨200, "Relationship archived successfully",
      some { r with status := RelStatus.archived, endDate := some now }⟩
  else
    ⟨200, "Relationship deleted successfully", none⟩

/-- updateRelationship: whitelist-only merge (title, description, type,
privacy, tags, customFields — title and description are carried in the
embedding), only while active. -/
def updateRelationship (uid : Nat) (newTitle newDescr : Option String)
    (r : Relationship) : RelOutcome :=
  if !(includesUser r uid) then
    ⟨403, "Access denied", some r⟩
  else if r.status ≠ .active then
    ⟨400, "Can only update active relationships", some r⟩
  else
    ⟨200, "Relationship updated successfully",
      some { r with title := newTitle.getD r.title,
                    description := newDescr.getD r.description }⟩

/-- requestBreakup: any party, only while active; sets status
requested_breakup and breakupRequestedBy. The success response is sent
before the notification, whose promise only has a `.catch` logger, so the
outcome does not depend on the sink. -/
def requestBreakup (uid : Nat) (_sinkOk : Bool) (r : Relationship) : RelOutcome :=
  if !(includesUser r uid) then
    ⟨403, "Access denied", some r⟩
  else if r.status ≠ .active then
    ⟨400, "Can only request breakup for active relationships", some r⟩
  else
    ⟨200, "Breakup request sent successfully",
      some { r with status := RelStatus.requestedBreakup,
                    breakupRequestedBy := some uid }⟩

/-- confirmBreakup: any party other than the breakup requester, only
while requested_breakup; sets status ended and endDate. The code reads
`breakupRequestedBy.toString()`, which throws (500) when the field is
unset. breakupRequestedBy is NOT cleared on the transition to ended. The
success response is sent before the `.catch`-guarded notification. -/
def confirmBreakup (uid now : Nat) (_sinkOk : Bool) (r : Relationship) : RelOutcome :=
  if !(includesUser r uid) then
    ⟨403, "Access denied", some r⟩
  else if r.status ≠ .requestedBreakup then
    ⟨400, "Relationship is not in breakup request state", some r⟩
  else
    match r.breakupRequestedBy with
    | none => ⟨500, "Server error during breakup confirmation", some r⟩
    | some b =>
      if b = uid then
        ⟨400, "You cannot confirm your own breakup request", some r⟩
      else
        ⟨200, "Breakup confirmed successfully",
          some { r with status := RelStatus.ended, endDate := some now }⟩

/-- cancelBreakupRequest: only the original requester, only while
requested_breakup; reverts to active and clears breakupRequestedBy. The
notification to the other party is awaited, so a sink failure yields a
500 after the save. -/
def cancelBreakupRequest (uid : Nat) (sinkOk : Bool) (r : Relationship) : RelOutcome :=
  if !(includesUser r uid) then
    ⟨403, "Not authorized to cancel this request", some r⟩
  else if r.status ≠ .requestedBreakup then
    ⟨400, "No breakup request pending for this relationship", some r⟩
  else
    match r.breakupRequestedBy with
    | none => ⟨500, "Server error during breakup request cancellation", some r⟩
    | some b =>
      if b ≠ uid then
        ⟨403, "Only the initiator can cancel the breakup request", some r⟩
      else
        let r' := { r with status := RelStatus.active, breakupRequestedBy := none }
        if sinkOk then
          ⟨200, "Breakup request canceled successfully. Relationship is now active.", some r'⟩
        else
          ⟨500, "Server error during breakup request cancellation", some r'⟩

/-! ## Terms (termSchema and termController) -/

/-- One entry of termSchema's `agreedBy` array. -/
structure Agreement where
  user : Nat
  signature : String
deriving DecidableEq, Repr

/-- `status` enumeration of termSchema. -/
inductive TermStatus
  | proposed
  | agreed
  | rejected
  | modified
  | archived
deriving DecidableEq, Repr

/-- One entry of termSchema's `violations` array. -/
structure Violation where
  reportedBy : Nat
  description : String
  severity : String
  resolved : Bool
deriving DecidableEq, Repr

/-- The Term document. -/
structure Term where
  relationship : Nat
  createdBy : Nat
  title : String
  description : String
  status : TermStatus
  agreedBy : List Agreement
  violations : List Violation
deriving DecidableEq, Repr

/-- termSchema.methods.hasUserAgreed. -/
def hasUserAgreed (t : Term) (uid : Nat) : Bool :=
  t.agreedBy.any (fun a => a.user = uid)

/-- Outcome of a controller acting on an existing Term. -/
structure TermOutcome where
  code : Nat
  msg : String
  term : Term
deriving DecidableEq, Repr

/-- Outcome of createTerm. -/
structure TermCreateOutcome where
  code : Nat
  msg : String
  term : Option Term
deriving DecidableEq, Repr

/-- createTerm (termController): any party, relationship must be active. -/
def createTerm (uid relId : Nat) (ti de : String) (sinkOk : Bool)
    (rel : Relationship) : TermCreateOutcome :=
  if !(includesUser rel uid) then
    ⟨403, "Access denied", none⟩
  else if rel.status ≠ .active then
    ⟨400, "Can only create terms for active relationships", none⟩
  else
    let t : Term := ⟨relId, uid, ti, de, .proposed, [], []⟩
    if sinkOk then ⟨201, "Term created successfully", some t⟩
    else ⟨500, "Server error during term creation", some t⟩

/-- agreeTerm (termController): membership check against the populated
relationship's initiator/partner, then the hasUserAgreed idempotency
guard, then one push onto agreedBy (signature defaults to the acting
user's full name) and the length-two agreement flip. The notification is
awaited, so a sink failure yields a 500 after the save. -/
def agreeTerm (uid : Nat) (sig : Option String) (fullName : String)
    (sinkOk : Bool) (rel : Relationship) (t : Term) : TermOutcome :=
  if rel.initiator ≠ uid && rel.partner ≠ uid then
    ⟨403, "Access denied", t⟩
  else if hasUserAgreed t uid then
    ⟨400, "You have already agreed to this term", t⟩
  else
    let t1 := { t with agreedBy := t.agreedBy ++ [⟨uid, sig.getD fullName⟩] }
    let t2 := if 2 ≤ t1.agreedBy.length then { t1 with status := TermStatus.agreed } else t1
    if sinkOk then ⟨200, "Term agreement recorded successfully", t2⟩
    else ⟨500, "Server error during term agreement", t2⟩

/-- reportViolation (termController): membership check, then an
append-only push onto violations (resolved defaults to false). The
notification is awaited, so a sink failure yields a 500 after the save. -/
def reportViolation (uid : Nat) (de sev : String) (sinkOk : Bool)
    (rel : Relationship) (t : Term) : TermOutcome :=
  if rel.initiator ≠ uid && rel.partner ≠ uid then
    ⟨403, "Access denied", t⟩
  else
    let t' := { t with violations := t.violations ++ [⟨uid, de, sev, false⟩] }
    if sinkOk then ⟨200, "Violation reported successfully", t'⟩
    else ⟨500, "Server error during violation report", t'⟩

/-! ## Certificates (certificateSchema) -/

/-- `level` enumeration of certificateSchema. -/
inductive CertLevel
  | bronze
  | silver
  | gold
  | platinum
  | diamond
deriving DecidableEq, Repr

/-- One entry of certificateSchema's `recipients` array (awardedAt
defaults to `Date.now`). -/
structure Recipient where
  user : Nat
  awardedAt : Nat
deriving DecidableEq, Repr

/-- The Certificate document. `relatedTo`/`relatedId` are `required:
true` in the schema; `none` models a document constructed without them
(their absence fails validation on save). -/
structure Certificate where
  relatedTo : Option String
  relatedId : Option Nat
  title : String
  description : String
  ctype : String
  level : CertLevel
  recipients : List Recipient
  certificateNumber : Option String
  validUntil : Option Nat
  isRevoked : Bool
  revokedAt : Option Nat
  revokedReason : Option String
  viewCount : Int
  downloadCount : Int
  shareCount : Int
deriving DecidableEq, Repr

/-- Required-path validation of certificateSchema: `relatedTo` and
`relatedId` both carry `required: true`. -/
def certificateRequiredFieldsOk (c : Certificate) : Bool :=
  c.relatedTo.isSome && c.relatedId.isSome

/-- certificateSchema.pre save hook: when `metadata.certificateNumber`
is unset, assign the freshly generated `CERT-<timestamp>-<random>` string
(`gen`). No collision check and no retry happens here. -/
def assignCertificateNumber (gen : String) (c : Certificate) : Certificate :=
  if c.certificateNumber = none then { c with certificateNumber := some gen } else c

/-- Outcome of saving a Certificate into the store. -/
structure CertSaveOutcome where
  ok : Bool
  store : List Certificate
  saved : Option Certificate
deriving DecidableEq, Repr

/-- `certificate.save()`: schema validation of the required paths, then
the pre-save number assignment, then the insert, which the unique index
on `metadata.certificateNumber` rejects when the number is already in
the store. A rejected save is an error to the caller; nothing retries. -/
def saveCertificate (gen : String) (store : List Certificate)
    (c : Certificate) : CertSaveOutcome :=
  if !(certificateRequiredFieldsOk c) then
    ⟨false, store, none⟩
  else
    let c' := assignCertificateNumber gen c
    if store.any (fun d => d.certificateNumber = c'.certificateNumber) then
      ⟨false, store, none⟩
    else
      ⟨true, store ++ [c'], some c'⟩

/-- certificateSchema.methods.revoke. -/
def Certificate.revoke (c : Certificate) (reason : String) (now : Nat) : Certificate :=
  { c with isRevoked := true, revokedAt := some now, revokedReason := some reason }

/-- certificateSchema.methods.incrementView. -/
def Certificate.incrementView (c : Certificate) : Certificate :=
  { c with viewCount := c.viewCount + 1 }

/-! ## Milestones (milestoneSchema and milestoneController) -/

/-- `status` enumeration of milestoneSchema. -/
inductive MStatus
  | pending
  | inProgress
  | completed
  | failed
  | archived
deriving DecidableEq, Repr

/-- `difficulty` enumeration of milestoneSchema. -/
inductive Difficulty
  | easy
  | medium
  | hard
  | expert
deriving DecidableEq, Repr

/-- One entry of milestoneSchema's `participants` array. -/
structure Participant where
  user : Nat
  completedAt : Option Nat
deriving DecidableEq, Repr

/-- One entry of milestoneSchema's `evidence` array. -/
structure Evidence where
  etype : String
  url : String
  description : String
  uploadedBy : Nat
deriving DecidableEq, Repr

/-- The Milestone document. -/
structure Milestone where
  relationship : Nat
  title : String
  description : String
  category : String
  status : MStatus
  rewardsCertificate : Bool
  difficulty : Difficulty
  participants : List Participant
  evidence : List Evidence
  completedDate : Option Nat
deriving DecidableEq, Repr

/-- milestoneSchema.methods.complete: set status completed and
completedDate, and add the completing user to participants if absent. -/
def Milestone.complete (m : Milestone) (uid now : Nat) : Milestone :=
  let m1 := { m with status := MStatus.completed, completedDate := some now }
  if m.participants.any (fun p => p.user = uid) then m1
  else { m1 with participants := m1.participants ++ [⟨uid, some now⟩] }

/-- The certificate level ladder of completeMilestone:
expert ↦ platinum, hard ↦ gold, medium ↦ silver, otherwise bronze. -/
def milestoneCertLevel (d : Difficulty) : CertLevel :=
  if d = .expert then .platinum
  else if d = .hard then .gold
  else if d = .medium then .silver
  else .bronze

/-- The Certificate document constructed by completeMilestone. The
controller passes `relationship` and `milestone` keys, which are not
paths of certificateSchema (strict mode drops them), and does not pass
the required `relatedTo`/`relatedId`, so those remain unset. -/
def milestoneCertificateDoc (m : Milestone) (rel : Relationship) (now : Nat) : Certificate :=
  { relatedTo := none
    relatedId := none
    title := m.title ++ " Achievement"
    description := "Awarded for completing the milestone: " ++ m.title
    ctype := "milestone"
    level := milestoneCertLevel m.difficulty
    recipients := [⟨rel.initiator, now⟩, ⟨rel.partner, now⟩]
    certificateNumber := none
    validUntil := none
    isRevoked := false
    revokedAt := none
    revokedReason := none
    viewCount := 0
    downloadCount := 0
    shareCount := 0 }

/-- Outcome of createMilestone. -/
structure MilestoneCreateOutcome where
  code : Nat
  msg : String
  milestone : Option Milestone
deriving DecidableEq, Repr

/-- createMilestone (milestoneController): any party, relationship must
be active. -/
def createMilestone (uid relId : Nat) (ti de cat : String)
    (rewardsCert : Bool) (d : Difficulty) (sinkOk : Bool)
    (rel : Relationship) : MilestoneCreateOutcome :=
  if !(includesUser rel uid) then
    ⟨403, "Access denied", none⟩
  else if rel.status ≠ .active then
    ⟨400, "Can only create milestones for active relationships", none⟩
  else
    let m : Milestone := ⟨relId, ti, de, cat, .pending, rewardsCert, d, [], [], none⟩
    if sinkOk then ⟨201, "Milestone created successfully", some m⟩
    else ⟨500, "Server error during milestone creation", some m⟩

/-- Outcome of completeMilestone: code, message, the Milestone, the
owning Relationship after the `$inc` on stats.milestonesAchieved, and
the Certificate collection after the call. -/
structure MilestoneOutcome where
  code : Nat
  msg : String
  milestone : Milestone
  rel : Relationship
  certStore : List Certificate
deriving DecidableEq, Repr

/-- completeMilestone (milestoneController): membership check against the
populated relationship, AlreadyCompleted guard, then `complete`, the
counter `$inc`, and — when rewards.certificate is set — the certificate
save (whose document lacks the required relatedTo/relatedId and therefore
fails validation, turning the request into a 500 after the milestone and
counter writes). The completion notifications are awaited, so a sink
failure also yields a 500 after the writes. -/
def completeMilestone (uid now : Nat) (gen : String) (sinkOk : Bool)
    (rel : Relationship) (m : Milestone)
    (certStore : List Certificate) : MilestoneOutcome :=
  if rel.initiator ≠ uid && rel.partner ≠ uid then
    ⟨403, "Access denied", m, rel, certStore⟩
  else if m.status = .completed then
    ⟨400, "Milestone is already completed", m, rel, certStore⟩
  else
    let m' := m.complete uid now
    let rel' := { rel with milestonesAchieved := rel.milestonesAchieved + 1 }
    if m.rewardsCertificate then
      let sv := saveCertificate gen certStore (milestoneCertificateDoc m rel now)
      if sv.ok then
        if sinkOk then ⟨200, "Milestone completed successfully", m', rel', sv.store⟩
        else ⟨500, "Server error during milestone completion", m', rel', sv.store⟩
      else
        ⟨500, "Server error during milestone completion", m', rel', sv.store⟩
    else
      if sinkOk then ⟨200, "Milestone completed successfully", m', rel', certStore⟩
      else ⟨500, "Server error during milestone completion", m', rel', certStore⟩

/-- Outcome of addEvidence. -/
structure EvidenceOutcome where
  code : Nat
  msg : String
  milestone : Milestone
deriving DecidableEq, Repr

/-- addEvidence (milestoneController): membership check, then an
append-only push onto evidence. No status is consulted and no
notification is sent. -/
def addEvidence (uid : Nat) (ety url de : String)
    (rel : Relationship) (m : Milestone) : EvidenceOutcome :=
  if rel.initiator ≠ uid && rel.partner ≠ uid then
    ⟨403, "Access denied", m⟩
  else
    ⟨200, "Evidence added successfully",
      { m with evidence := m.evidence ++ [⟨ety, url, de, uid⟩] }⟩

/-! ## Activities (activitySchema and activityController) -/

/-- One entry of activitySchema's `reactions` array. -/
structure Reaction where
  user : Nat
  rtype : String
deriving DecidableEq, Repr

/-- One entry of activitySchema's `comments` array. -/
structure Comment where
  user : Nat
  text : String
deriving DecidableEq, Repr

/-- The Activity document (impact.trustChange and
impact.relationshipStrength default to 0). -/
structure Activity where
  relationship : Nat
  createdBy : Nat
  title : String
  atype : String
  reactions : List Reaction
  comments : List Comment
  trustChange : Int
  relationshipStrength : Int
deriving DecidableEq, Repr

/-- activitySchema.methods.addReaction: remove any existing reaction by
this user, then push the new one (at most one reaction per user). -/
def Activity.addReaction (a : Activity) (uid : Nat) (ty : String) : Activity :=
  { a with reactions := a.reactions.filter (fun x => x.user ≠ uid) ++ [⟨uid, ty⟩] }

/-- activitySchema.methods.addComment: append-only push. -/
def Activity.addComment (a : Activity) (uid : Nat) (text : String) : Activity :=
  { a with comments := a.comments ++ [⟨uid, text⟩] }

/-- Outcome of createActivity: code, message, the new Activity, and the
owning Relationship after the stats updates. -/
structure ActivityCreateOutcome where
  code : Nat
  msg : String
  activity : Option Activity
  rel : Relationship
deriving DecidableEq, Repr

/-- Range validation of activitySchema's impact paths: `trustChange` and
`relationshipStrength` both carry `min: -10, max: 10`, enforced by the
schema validators when the Activity document is saved. -/
def activityImpactOk (trustChange relationshipStrength : Int) : Bool :=
  (-10 ≤ trustChange && trustChange ≤ 10) &&
  (-10 ≤ relationshipStrength && relationshipStrength ≤ 10)

/-- createActivity (activityController): any party, relationship must be
active; `activity.save()` then runs the schema validators — an impact
value outside -10..10 rejects the save, which the catch block turns into
a 500 server error before any relationship write. On a valid save the
controller increments stats.totalActivities, sets stats.lastInteraction,
and — when `impact.trustChange` is truthy (nonzero) — sets
stats.trustLevel to `Math.max(0, Math.min(100, trustLevel +
trustChange))`. The outer guard also fires on a truthy
relationshipStrength, mirroring `if (impact && (impact.trustChange ||
impact.relationshipStrength))`. The notification is awaited, so a sink
failure yields a 500 after the writes. -/
def createActivity (uid relId now : Nat) (ti ty : String)
    (trustChange relationshipStrength : Int) (sinkOk : Bool)
    (rel : Relationship) : ActivityCreateOutcome :=
  if !(includesUser rel uid) then
    ⟨403, "Access denied", none, rel⟩
  else if rel.status ≠ .active then
    ⟨400, "Can only create activities for active relationships", none, rel⟩
  else if !(activityImpactOk trustChange relationshipStrength) then
    ⟨500, "Server error during activity creation", none, rel⟩
  else
    let a : Activity := ⟨relId, uid, ti, ty, [], [], trustChange, relationshipStrength⟩
    let rel1 := { rel with totalActivities := rel.totalActivities + 1,
                           lastInteraction := now }
    let rel2 :=
      if trustChange ≠ 0 || relationshipStrength ≠ 0 then
        if trustChange ≠ 0 then
          { rel1 with trustLevel := max 0 (min 100 (rel.trustLevel + trustChange)) }
        else rel1
      else rel1
    if sinkOk then ⟨201, "Activity created successfully", some a, rel2⟩
    else ⟨500, "Server error during activity creation", some a, rel2⟩

/-- Outcome of addReaction / addComment. -/
structure ActivityOutcome where
  code : Nat
  msg : String
  activity : Activity
deriving DecidableEq, Repr

/-- addReaction (activityController): membership check, then the
replace-by-user push. No status is consulted and no notification is
sent. -/
def addReaction (uid : Nat) (ty : String)
    (rel : Relationship) (a : Activity) : ActivityOutcome :=
  if rel.initiator ≠ uid && rel.partner ≠ uid then
    ⟨403, "Access denied", a⟩
  else
    ⟨200, "Reaction added successfully", a.addReaction uid ty⟩

/-- Executable embedding of JavaScript's `String.prototype.trim`:
drop leading and trailing whitespace. -/
def jsTrim (s : String) : String :=
  String.mk (((s.data.dropWhile Char.isWhitespace).reverse.dropWhile
    Char.isWhitespace).reverse)

/-- addComment (activityController): empty-text check, membership check,
then the append-only push of the trimmed text. -/
def addComment (uid : Nat) (text : String)
    (rel : Relationship) (a : Activity) : ActivityOutcome :=
  if (jsTrim text).length = 0 then
    ⟨400, "Comment text is required", a⟩
  else if rel.initiator ≠ uid && rel.partner ≠ uid then
    ⟨403, "Access denied", a⟩
  else
    ⟨200, "Comment added successfully", a.addComment uid (jsTrim text)⟩

/-- deleteActivity (activityController): creator-only; deletes and
decrements stats.totalActivities on the owning relationship. -/
structure ActivityDeleteOutcome where
  code : Nat
  msg : String
  rel : Relationship
  deleted : Bool
deriving DecidableEq, Repr

/-- deleteActivity (activityController). -/
def deleteActivity (uid : Nat) (rel : Relationship) (a : Activity) : ActivityDeleteOutcome :=
  if a.createdBy ≠ uid then
    ⟨403, "Only the creator can delete this activity", rel, false⟩
  else
    ⟨200, "Activity deleted successfully",
      { rel with totalActivities := rel.totalActivities - 1 }, true⟩

/-! ## Reachable Relationship states -/

/-- One mutation of a stored Relationship document by a controller of
this repository. Failed calls persist the document unchanged and appear
as identity steps; declineRelationship and the delete branch of
deleteRelationship remove the document and so have no successor state.
The dependent-entity coordinators' writes to the relationships
collection (activity stats, milestone counter, latestCertificate) are
included. -/
inductive RelStep : Relationship → Relationship → Prop
  | accept {r r' : Relationship} (u t : Nat) (ok : Bool) :
      (acceptRelationship u t ok r).rel = some r' → RelStep r r'
  | update {r r' : Relationship} (u : Nat) (ti de : Option String) :
      (updateRelationship u ti de r).rel = some r' → RelStep r r'
  | request {r r' : Relationship} (u : Nat) (ok : Bool) :
      (requestBreakup u ok r).rel = some r' → RelStep r r'
  | confirm {r r' : Relationship} (u t : Nat) (ok : Bool) :
      (confirmBreakup u t ok r).rel = some r' → RelStep r r'
  | cancel {r r' : Relationship} (u : Nat) (ok : Bool) :
      (cancelBreakupRequest u ok r).rel = some r' → RelStep r r'
  | archive {r r' : Relationship} (u t : Nat) :
      (deleteRelationship u t r).rel = some r' → RelStep r r'
  | activity {r : Relationship} (u relId now : Nat) (ti ty : String) (c rs : Int) (ok : Bool) :
      RelStep r (createActivity u relId now ti ty c rs ok r).rel
  | milestone {r : Relationship} (u now : Nat) (gen : String) (ok : Bool)
      (m : Milestone) (cs : List Certificate) :
      RelStep r (completeMilestone u now gen ok r m cs).rel
  | activityDel {r : Relationship} (u : Nat) (a : Activity) :
      RelStep r (deleteActivity u r a).rel
  | newCert {r : Relationship} (cid : Nat) :
      RelStep r { r with latestCertificate := some cid }

/-- A Relationship document reachable from its creation by
createRelationship (two distinct parties, proposed as pending) through
any sequence of controller calls that keep it stored. -/
def RelReachable (r : Relationship) : Prop :=
  ∃ (a b t : Nat) (ti de ty : String), a ≠ b ∧
    Relation.ReflTransGen RelStep (newRelationship a b ti de ty t) r

/-- Decidable statement of the breakup-marker invariant that actually
holds of the code: breakupRequestedBy is absent in pending, active and
archived states, and holds a party of the relationship in
requested_breakup and in ended states (confirmBreakup does not clear
it). -/
def breakupInvB (r : Relationship) : Bool :=
  match r.status with
  | .pending => r.breakupRequestedBy = none
  | .active => r.breakupRequestedBy = none
  | .archived => r.breakupRequestedBy = none
  | .requestedBreakup =>
      match r.breakupRequestedBy with
      | some u => u = r.initiator || u = r.partner
      | none => false
  | .ended =>
      match r.breakupRequestedBy with
      | some u => u = r.initiator || u = r.partner
      | none => false

/-- The collision-check-and-retry certificate-number assignment that the
specification describes (`collision-checked against existing numbers
before acceptance — retry on collision`): walk the stream of generated
candidates until one is not among the existing numbers. The repository's
pre-save hook does not do this; the definition exists to be compared
against `assignCertificateNumber`/`saveCertificate`. -/
def specRetryAssign (gens : List String) (existing : List String) : Option String :=
  gens.find? (fun g => !existing.contains g)

/-- At most one stored Relationship per unordered pair of users. -/
def pairUnique (db : List Relationship) : Prop :=
  db.Pairwise (fun r1 r2 => samePair r2 r1.initiator r1.partner = false)

/-- Stored certificates carry pairwise-distinct certificate numbers. -/
def certNumbersDistinct (store : List Certificate) : Prop :=
  (store.map Certificate.certificateNumber).Nodup

/-! ## Concrete fixture documents used by witnesses and counterexamples -/

/-- The happy-path chain at parties 0 and 1: the proposed document. -/
def rx0 : Relationship := newRelationship 0 1 "Friendship" "" "friend" 1

/-- After acceptance by user 1 at time 2. -/
def rx1 : Relationship := { rx0 with status := RelStatus.active, acceptedDate := some 2 }

/-- After a breakup request by user 0. -/
def rx2 : Relationship :=
  { rx1 with status := RelStatus.requestedBreakup, breakupRequestedBy := some 0 }

/-- After breakup confirmation by user 1 at time 3 (breakupRequestedBy
is retained by the code). -/
def rx3 : Relationship := { rx2 with status := RelStatus.ended, endDate := some 3 }

/-- An active relationship with a low trust level. -/
def relLowTrust : Relationship := { rx1 with trustLevel := 5 }

/-- A non-completed hard milestone with a certificate reward. -/
def mHard : Milestone :=
  ⟨5, "Climb a mountain", "", "trust_based", .pending, true, .hard, [], [], none⟩

/-- A non-completed milestone without a certificate reward. -/
def mPlain : Milestone :=
  ⟨5, "Watch a sunset", "", "custom", .pending, false, .medium, [], [], none⟩

/-- A term already agreed by user 1 only. -/
def tOne : Term := ⟨5, 1, "Be honest", "No secrets", .proposed, [⟨1, "sig1"⟩], []⟩

/-- An activity created by user 0. -/
def actX : Activity := ⟨5, 0, "Coffee", "conversation", [], [], 0, 0⟩

/-- A pending relationship proposed by user 1 to user 0. -/
def rp0 : Relationship := newRelationship 1 0 "Pals" "" "friend" 1

/-- A stored certificate whose number is CERT-A. -/
def certStored : Certificate :=
  { relatedTo := some "relationship"
    relatedId := some 5
    title := "Old certificate"
    description := ""
    ctype := "relationship"
    level := .gold
    recipients := [⟨0, 1⟩, ⟨1, 1⟩]
    certificateNumber := some "CERT-A"
    validUntil := none
    isRevoked := false
    revokedAt := none
    revokedReason := none
    viewCount := 0
    downloadCount := 0
    shareCount := 0 }

/-- A valid fresh certificate document, number not yet assigned. -/
def certFresh : Certificate :=
  { certStored with title := "New certificate", certificateNumber := none }

/-! ## Theorems -/

/-- samePair tests the unordered pair: swapping the two users does not
change the result. -/
theorem samePair_symm (r : Relationship) (a b : Nat) :
    samePair r b a = samePair r a b := by
  unfold samePair
  exact Bool.or_comm _ _

/-- C1: Happy-path lifecycle: starting with no relationship between the
distinct users A and B, proposeRelationship by A targeting B yields a
relationship with status pending; acceptRelationship by B then yields
status active and sets acceptedDate; requestBreakup by A then yields
status requested_breakup with breakupRequestedBy = A; confirmBreakup by B
then yields status ended with endDate set. -/
theorem relationship_happy_path (A B t1 t2 t3 : Nat) (hAB : A ≠ B) (ti de ty : String) :
    ∃ r0 r1 r2 r3 : Relationship,
      createRelationship A (some B) ti de ty t1 true [] =
        ⟨201, "Relationship invitation sent successfully", [r0]⟩ ∧
      r0.status = .pending ∧ r0.initiator = A ∧ r0.partner = B ∧
      (acceptRelationship B t2 true r0).code = 200 ∧
      (acceptRelationship B t2 true r0).rel = some r1 ∧
      r1.status = .active ∧ r1.acceptedDate = some t2 ∧
      (requestBreakup A true r1).code = 200 ∧
      (requestBreakup A true r1).rel = some r2 ∧
      r2.status = .requestedBreakup ∧ r2.breakupRequestedBy = some A ∧
      (confirmBreakup B t3 true r2).code = 200 ∧
      (confirmBreakup B t3 true r2).rel = some r3 ∧
      r3.status = .ended ∧ r3.endDate = some t3 := by
  have hBA : B ≠ A := fun h => hAB h.symm
  refine ⟨newRelationship A B ti de ty t1,
    { newRelationship A B ti de ty t1 with
        status := RelStatus.active, acceptedDate := some t2 },
    { newRelationship A B ti de ty t1 with
        status := RelStatus.requestedBreakup, acceptedDate := some t2,
        breakupRequestedBy := some A },
    { newRelationship A B ti de ty t1 with
        status := RelStatus.ended, acceptedDate := some t2,
        breakupRequestedBy := some A, endDate := some t3 }, ?_⟩
  simp [createRelationship, acceptRelationship, requestBreakup, confirmBreakup,
        newRelationship, includesUser, samePair, hAB, hBA]

/-- Witness for C1 at A = 0, B = 1. -/
theorem relationship_happy_path_witness :
    (0 : Nat) ≠ 1 ∧
    ∃ r0 r1 r2 r3 : Relationship,
      createRelationship 0 (some 1) "Friendship" "d" "friend" 10 true [] =
        ⟨201, "Relationship invitation sent successfully", [r0]⟩ ∧
      r0.status = .pending ∧ r0.initiator = 0 ∧ r0.partner = 1 ∧
      (acceptRelationship 1 20 true r0).code = 200 ∧
      (acceptRelationship 1 20 true r0).rel = some r1 ∧
      r1.status = .active ∧ r1.acceptedDate = some 20 ∧
      (requestBreakup 0 true r1).code = 200 ∧
      (requestBreakup 0 true r1).rel = some r2 ∧
      r2.status = .requestedBreakup ∧ r2.breakupRequestedBy = some 0 ∧
      (confirmBreakup 1 30 true r2).code = 200 ∧
      (confirmBreakup 1 30 true r2).rel = some r3 ∧
      r3.status = .ended ∧ r3.endDate = some 30 :=
  ⟨by decide, relationship_happy_path 0 1 10 20 30 (by decide) "Friendship" "d" "friend"⟩

/-- C2: For a relationship in status requested_breakup, confirmBreakup
invoked by the user recorded in breakupRequestedBy fails (403 when the
recorded user is not even a party, otherwise the 400
cannot-confirm-your-own-request rejection) and persists the document
unchanged, so it never transitions the relationship to ended. -/
theorem confirmBreakup_by_requester_fails (u t : Nat) (ok : Bool) (r : Relationship)
    (hst : r.status = .requestedBreakup) (hbr : r.breakupRequestedBy = some u) :
    ((confirmBreakup u t ok r).code = 403 ∨ (confirmBreakup u t ok r).code = 400) ∧
    (confirmBreakup u t ok r).rel = some r := by
  unfold confirmBreakup
  by_cases hm : includesUser r u
  · simp [hm, hst, hbr]
  · simp [hm]

/-- Witness for C2 on the concrete requested_breakup state rx2, whose
breakup was requested by user 0. -/
theorem confirmBreakup_by_requester_fails_witness :
    rx2.status = .requestedBreakup ∧ rx2.breakupRequestedBy = some 0 ∧
    (((confirmBreakup 0 9 true rx2).code = 403 ∨ (confirmBreakup 0 9 true rx2).code = 400) ∧
      (confirmBreakup 0 9 true rx2).rel = some rx2) :=
  ⟨rfl, rfl, confirmBreakup_by_requester_fails 0 9 true rx2 rfl rfl⟩

/-- C3: When a relationship document for the unordered pair {a, b}
already exists (stored in either order), proposeRelationship between a
and b — in either order — fails with the duplicate-pair conflict
rejection and leaves the collection unchanged; and createRelationship
preserves the at-most-one-document-per-unordered-pair invariant. -/
theorem duplicate_pair_rejected (a b t : Nat) (ok : Bool) (ti de ty : String)
    (db : List Relationship) :
    (a ≠ b → (∃ r ∈ db, samePair r a b = true) →
      createRelationship a (some b) ti de ty t ok db =
        ⟨400, "Relationship already exists", db⟩ ∧
      createRelationship b (some a) ti de ty t ok db =
        ⟨400, "Relationship already exists", db⟩) ∧
    (pairUnique db → pairUnique (createRelationship a (some b) ti de ty t ok db).db) := by
  constructor
  · intro hne hex
    obtain ⟨r, hr, hs⟩ := hex
    have hany1 : db.any (fun x => samePair x a b) = true :=
      List.any_eq_true.mpr ⟨r, hr, hs⟩
    have hany2 : db.any (fun x => samePair x b a) = true :=
      List.any_eq_true.mpr ⟨r, hr, by rw [samePair_symm]; exact hs⟩
    have hba : ¬ b = a := fun h => hne h.symm
    constructor
    · unfold createRelationship
      simp [hba, hany1]
    · unfold createRelationship
      simp [hne, hany2]
  · intro hp
    unfold createRelationship
    by_cases h1 : b = a
    · simpa [h1] using hp
    · by_cases h2 : db.any (fun x => samePair x a b) = true
      · simpa [h1, h2] using hp
      · have hall : ∀ x ∈ db, samePair x a b = false := by
          intro x hx
          by_contra hcon
          exact h2 (List.any_eq_true.mpr ⟨x, hx, by
            cases hxb : samePair x a b with
            | false => exact absurd hxb hcon
            | true => rfl⟩)
        have hnew : pairUnique (db ++ [newRelationship a b ti de ty t]) := by
          unfold pairUnique at hp ⊢
          rw [List.pairwise_append]
          refine ⟨hp, List.pairwise_singleton _ _, ?_⟩
          intro x hx y hy
          simp only [List.mem_singleton] at hy
          subst hy
          have := hall x hx
          simp only [samePair, newRelationship] at this ⊢
          simp only [Bool.or_eq_false_iff, Bool.and_eq_false_iff,
            decide_eq_false_iff_not] at this ⊢
          omega
        simp [h1, h2]
        cases ok <;> simpa using hnew

/-- Witness for C3: a stored relationship between 0 and 1 blocks a new
proposal in both directions. -/
theorem duplicate_pair_rejected_witness :
    createRelationship 0 (some 1) "t" "d" "friend" 7 true [rx0] =
      ⟨400, "Relationship already exists", [rx0]⟩ ∧
    createRelationship 1 (some 0) "t" "d" "friend" 7 true [rx0] =
      ⟨400, "Relationship already exists", [rx0]⟩ :=
  (duplicate_pair_rejected 0 1 7 true "t" "d" "friend" [rx0]).1 (by decide)
    ⟨rx0, by simp, rfl⟩

/-- C6 counterexample: on the active relationship relLowTrust whose
trustLevel is 5, an activity with impact.trustChange = -20 violates
activitySchema's min -10 validator, so activity.save() is rejected and
the request reports a 500 server error with the relationship unchanged:
trustLevel stays 5 and is never clamped to 0, contrary to the claim's
asserted outcome. -/
theorem activity_trust_out_of_range_rejected :
    (createActivity 0 5 9 "Argument" "conflict" (-20) 0 true relLowTrust).code = 500 ∧
    (createActivity 0 5 9 "Argument" "conflict" (-20) 0 true relLowTrust).rel =
      relLowTrust ∧
    (createActivity 0 5 9 "Argument" "conflict" (-20) 0 true relLowTrust).rel.trustLevel = 5 := by
  decide

/-- C6 amended: createActivity applies impact.trustChange additively to
the owning relationship's trustLevel, clamped to [0, 100], for every
change that passes activitySchema's min -10 / max 10 validators; a
change outside that range (such as -20) makes activity.save() fail
validation, so the request reports a 500 server error and the
relationship — in particular its trustLevel — is left unchanged, never
set to a clamped value and never negative. -/
theorem activity_trust_clamped_in_range (u relId now : Nat) (ti ty : String)
    (c rs : Int) (rel : Relationship)
    (hm : includesUser rel u = true) (hs : rel.status = .active)
    (hlo : 0 ≤ rel.trustLevel) (hhi : rel.trustLevel ≤ 100) :
    (-10 ≤ c → c ≤ 10 → -10 ≤ rs → rs ≤ 10 →
      (createActivity u relId now ti ty c rs true rel).code = 201 ∧
      (createActivity u relId now ti ty c rs true rel).rel.trustLevel =
        max 0 (min 100 (rel.trustLevel + c))) ∧
    (c < -10 ∨ 10 < c ∨ rs < -10 ∨ 10 < rs →
      (createActivity u relId now ti ty c rs true rel).code = 500 ∧
      (createActivity u relId now ti ty c rs true rel).rel = rel) := by
  constructor
  · intro hc1 hc2 hr1 hr2
    have hok : activityImpactOk c rs = true := by
      unfold activityImpactOk
      simp only [Bool.and_eq_true, decide_eq_true_eq]
      omega
    unfold createActivity
    by_cases hc : c = 0
    · subst hc
      by_cases hrs : rs = 0
      · subst hrs
        simp [hm, hs, hok]
        omega
      · simp [hm, hs, hok, hrs]
        omega
    · simp [hm, hs, hok, hc]
  · intro hout
    have hbad : activityImpactOk c rs = false := by
      unfold activityImpactOk
      simp only [Bool.and_eq_false_iff, decide_eq_false_iff_not, not_le]
      omega
    unfold createActivity
    simp [hm, hs, hbad]

/-- Witness for the amended C6 on relLowTrust (trustLevel 5): the
in-range change -10 is clamped to exactly 0, and the out-of-range change
-20 is rejected with a 500 leaving the relationship unchanged. -/
theorem activity_trust_clamped_in_range_witness :
    (createActivity 0 5 9 "Cold shoulder" "conflict" (-10) 0 true relLowTrust).code = 201 ∧
    (createActivity 0 5 9 "Cold shoulder" "conflict" (-10) 0 true relLowTrust).rel.trustLevel = 0 ∧
    (createActivity 0 5 9 "Argument" "conflict" (-20) 0 true relLowTrust).code = 500 ∧
    (createActivity 0 5 9 "Argument" "conflict" (-20) 0 true relLowTrust).rel =
      relLowTrust := by
  have h1 := activity_trust_clamped_in_range 0 5 9 "Cold shoulder" "conflict" (-10) 0
    relLowTrust rfl rfl (by decide) (by decide)
  have h2 := activity_trust_clamped_in_range 0 5 9 "Argument" "conflict" (-20) 0
    relLowTrust rfl rfl (by decide) (by decide)
  have ha := h1.1 (by decide) (by decide) (by decide) (by decide)
  have hb := h2.2 (Or.inl (by decide))
  refine ⟨ha.1, ?_, hb.1, hb.2⟩
  rw [ha.2]
  decide

/-- C5: For a party u of a term's relationship: if u already appears in
agreedBy, agreeTerm fails with the already-agreed rejection and the term
(in particular agreedBy) is unchanged; otherwise it appends exactly one
entry for u, and the resulting status is agreed exactly when two entries
with distinct users have been recorded. The hypothesis `hag` is the
invariant of terms produced by this code base: status agreed is only ever
set with at least two agreedBy entries present. -/
theorem agreeTerm_idempotent_per_user (u : Nat) (sig : Option String) (fn : String)
    (rel : Relationship) (t : Term)
    (hu : rel.initiator = u ∨ rel.partner = u)
    (hag : t.status = .agreed → 2 ≤ t.agreedBy.length) :
    (hasUserAgreed t u = true →
      agreeTerm u sig fn true rel t = ⟨400, "You have already agreed to this term", t⟩) ∧
    (hasUserAgreed t u = false →
      (agreeTerm u sig fn true rel t).code = 200 ∧
      (agreeTerm u sig fn true rel t).term.agreedBy =
        t.agreedBy ++ [⟨u, sig.getD fn⟩] ∧
      ((agreeTerm u sig fn true rel t).term.status = .agreed ↔
        ∃ x ∈ (agreeTerm u sig fn true rel t).term.agreedBy,
          ∃ y ∈ (agreeTerm u sig fn true rel t).term.agreedBy, x.user ≠ y.user)) := by
  have hnot : ¬(¬rel.initiator = u ∧ ¬rel.partner = u) := by
    rcases hu with h1 | h1
    · exact fun hx => hx.1 h1
    · exact fun hx => hx.2 h1
  constructor
  · intro h
    unfold agreeTerm
    simp [hnot, h]
  · intro h
    cases hL : t.agreedBy with
    | nil =>
      have hnag : ¬ t.status = TermStatus.agreed := by
        intro hA
        have := hag hA
        rw [hL] at this
        simp at this
      unfold agreeTerm
      simp [hnot, h, hL, hnag]
    | cons a as =>
      have ha : ¬ a.user = u := by
        have h' := h
        unfold hasUserAgreed at h'
        rw [hL] at h'
        simp at h'
        exact h'.1
      unfold agreeTerm
      simp [hnot, h, hL]
      exact Or.inl ⟨⟨u, sig.getD fn⟩, Or.inr rfl, ha⟩

/-- Witness for C5 on the concrete term tOne (already agreed by user 1
only): user 1 is rejected, user 0's agreement is appended and flips the
status to agreed. -/
theorem agreeTerm_idempotent_per_user_witness :
    (rx1.initiator = 1 ∨ rx1.partner = 1) ∧
    (rx1.initiator = 0 ∨ rx1.partner = 0) ∧
    agreeTerm 1 none "One O" true rx1 tOne =
      ⟨400, "You have already agreed to this term", tOne⟩ ∧
    (agreeTerm 0 none "Zero Z" true rx1 tOne).code = 200 ∧
    (agreeTerm 0 none "Zero Z" true rx1 tOne).term.agreedBy =
      tOne.agreedBy ++ [⟨0, "Zero Z"⟩] ∧
    (agreeTerm 0 none "Zero Z" true rx1 tOne).term.status = .agreed := by
  have h1 := agreeTerm_idempotent_per_user 1 none "One O" rx1 tOne
    (Or.inr rfl) (by intro hA; exact absurd hA (by decide))
  have h0 := agreeTerm_idempotent_per_user 0 none "Zero Z" rx1 tOne
    (Or.inl rfl) (by intro hA; exact absurd hA (by decide))
  have h0' := h0.2 rfl
  refine ⟨Or.inr rfl, Or.inl rfl, h1.1 rfl, h0'.1, h0'.2.1, ?_⟩
  apply h0'.2.2.mpr
  rw [h0'.2.1]
  decide

/-- C10: The dependent-entity mutation operations other than creation —
agreeTerm, completeMilestone, addEvidence, addReaction, addComment,
reportViolation — guard only on the actor being a party of the owning
relationship (plus their own local guards), never on the relationship's
status, so they succeed for an arbitrary relationship status; only
createTerm, createMilestone and createActivity reject a non-active
relationship. -/
theorem dependent_mutations_ignore_status (u relId now : Nat) (sig : Option String)
    (fn ti de cat ety url txt sev ty : String) (c rs : Int) (d : Difficulty)
    (rwc : Bool) (gen : String) (cs : List Certificate)
    (rel : Relationship) (t : Term) (m : Milestone) (a : Activity)
    (hu : includesUser rel u = true) :
    (hasUserAgreed t u = false → (agreeTerm u sig fn true rel t).code = 200) ∧
    (m.status ≠ .completed → m.rewardsCertificate = false →
      (completeMilestone u now gen true rel m cs).code = 200) ∧
    (addEvidence u ety url de rel m).code = 200 ∧
    (addReaction u ty rel a).code = 200 ∧
    ((jsTrim txt).length ≠ 0 → (addComment u txt rel a).code = 200) ∧
    (reportViolation u de sev true rel t).code = 200 ∧
    (rel.status ≠ .active → (createTerm u relId ti de true rel).code = 400) ∧
    (rel.status ≠ .active →
      (createMilestone u relId ti de cat rwc d true rel).code = 400) ∧
    (rel.status ≠ .active →
      (createActivity u relId now ti ty c rs true rel).code = 400) := by
  have hu' := hu
  simp only [includesUser, Bool.or_eq_true, decide_eq_true_eq] at hu'
  have hnot : ¬(¬rel.initiator = u ∧ ¬rel.partner = u) := by
    rcases hu' with h1 | h1
    · exact fun hx => hx.1 h1
    · exact fun hx => hx.2 h1
  refine ⟨?_, ?_, ?_, ?_, ?_, ?_, ?_, ?_, ?_⟩
  · intro h
    unfold agreeTerm
    simp [hnot, h]
  · intro h1 h2
    unfold completeMilestone
    simp [hnot, h1, h2]
  · unfold addEvidence
    simp [hnot]
  · unfold addReaction
    simp [hnot]
  · intro h
    unfold addComment
    simp [hnot, h]
  · unfold reportViolation
    simp [hnot]
  · intro h
    unfold createTerm
    simp [hu, h]
  · intro h
    unfold createMilestone
    simp [hu, h]
  · intro h
    unfold createActivity
    simp [hu, h]

/-- Witness for C10 on the concrete ended relationship rx3: all six
non-creation mutations succeed, all three creations are rejected. -/
theorem dependent_mutations_ignore_status_witness :
    includesUser rx3 0 = true ∧ hasUserAgreed tOne 0 = false ∧
    mPlain.status ≠ .completed ∧ mPlain.rewardsCertificate = false ∧
    (jsTrim "hello").length ≠ 0 ∧ rx3.status ≠ .active ∧
    (agreeTerm 0 none "Zero Z" true rx3 tOne).code = 200 ∧
    (completeMilestone 0 9 "CERT-N" true rx3 mPlain []).code = 200 ∧
    (addEvidence 0 "photo" "u" "d" rx3 mPlain).code = 200 ∧
    (addReaction 0 "like" rx3 actX).code = 200 ∧
    (addComment 0 "hello" rx3 actX).code = 200 ∧
    (reportViolation 0 "d" "minor" true rx3 tOne).code = 200 ∧
    (createTerm 0 5 "t" "d" true rx3).code = 400 ∧
    (createMilestone 0 5 "t" "d" "custom" false .medium true rx3).code = 400 ∧
    (createActivity 0 5 9 "t" "conversation" 1 0 true rx3).code = 400 := by
  have h := dependent_mutations_ignore_status 0 5 9 none "Zero Z" "t" "d" "custom"
    "photo" "u" "hello" "minor" "conversation" 1 0 Difficulty.medium false "CERT-N" []
    rx3 tOne mPlain actX rfl
  exact ⟨rfl, rfl, by decide, rfl, by decide, by decide, h.1 rfl,
    h.2.1 (by decide) rfl, h.2.2.1, h.2.2.2.1, h.2.2.2.2.1 (by decide),
    h.2.2.2.2.2.1, h.2.2.2.2.2.2.1 (by decide), h.2.2.2.2.2.2.2.1 (by decide),
    h.2.2.2.2.2.2.2.2 (by decide)⟩

/-- C8 counterexample: acceptRelationship on the valid pending
relationship rx0 with a failing notification sink persists the
transition to active (no rollback) but reports a 500 server error to the
caller, because the controller awaits the notification inside its try
block — so a notification-sink failure does make the triggering
operation report failure, contrary to the claim. -/
theorem notification_failure_fails_accept :
    (acceptRelationship 1 5 false rx0).code = 500 ∧
    (acceptRelationship 1 5 false rx0).rel =
      some { rx0 with status := RelStatus.active, acceptedDate := some 5 } := by
  decide

/-- C8 amended: a notification-sink failure never rolls back the
persisted state of any of the six lifecycle operations (the persisted
document is identical whether the sink succeeds or fails); requestBreakup
and confirmBreakup respond before the `.catch`-guarded notification and
so are entirely independent of the sink; but proposeRelationship,
acceptRelationship, declineRelationship and cancelBreakupRequest await
the notification and report a 500 server error when it fails, even
though their transition has already persisted. -/
theorem notification_failure_behavior (u p t : Nat) (ti de ty : String)
    (r rp rb : Relationship) (db : List Relationship) :
    (createRelationship u (some p) ti de ty t false db).db =
      (createRelationship u (some p) ti de ty t true db).db ∧
    (acceptRelationship u t false r).rel = (acceptRelationship u t true r).rel ∧
    (declineRelationship u false r).rel = (declineRelationship u true r).rel ∧
    (cancelBreakupRequest u false r).rel = (cancelBreakupRequest u true r).rel ∧
    requestBreakup u false r = requestBreakup u true r ∧
    confirmBreakup u t false r = confirmBreakup u t true r ∧
    (rp.partner = u → rp.status = .pending →
      (acceptRelationship u t false rp).code = 500) ∧
    (rp.partner = u → rp.status = .pending →
      (declineRelationship u false rp).code = 500) ∧
    (includesUser rb u = true → rb.status = .requestedBreakup →
      rb.breakupRequestedBy = some u → (cancelBreakupRequest u false rb).code = 500) ∧
    (p ≠ u → db.any (fun x => samePair x u p) = false →
      (createRelationship u (some p) ti de ty t false db).code = 500) := by
  refine ⟨?_, ?_, ?_, ?_, rfl, rfl, ?_, ?_, ?_, ?_⟩
  · simp only [createRelationship]
    split_ifs <;> rfl
  · unfold acceptRelationship
    split_ifs <;> rfl
  · unfold declineRelationship
    split_ifs <;> rfl
  · unfold cancelBreakupRequest
    split_ifs <;> try rfl
    all_goals
      cases r.breakupRequestedBy with
      | none => rfl
      | some b => by_cases hb : b ≠ u <;> simp [hb]
  · intro h1 h2
    unfold acceptRelationship
    simp [h1, h2]
  · intro h1 h2
    unfold declineRelationship
    simp [h1, h2]
  · intro h1 h2 h3
    unfold cancelBreakupRequest
    simp [h1, h2, h3]
  · intro h1 h2
    have h1' : ¬ p = u := h1
    simp only [createRelationship]
    simp [h1', h2]

/-- Witness for the amended C8 at user 0, the pending relationship rp0
(proposed by 1 to 0), the requested-breakup relationship rx2 (requested
by 0), and an empty collection. -/
theorem notification_failure_behavior_witness :
    (createRelationship 0 (some 2) "t" "d" "friend" 5 false []).db =
      (createRelationship 0 (some 2) "t" "d" "friend" 5 true []).db ∧
    (acceptRelationship 0 5 false rx1).rel = (acceptRelationship 0 5 true rx1).rel ∧
    (declineRelationship 0 false rx1).rel = (declineRelationship 0 true rx1).rel ∧
    (cancelBreakupRequest 0 false rx1).rel = (cancelBreakupRequest 0 true rx1).rel ∧
    requestBreakup 0 false rx1 = requestBreakup 0 true rx1 ∧
    confirmBreakup 0 5 false rx1 = confirmBreakup 0 5 true rx1 ∧
    (acceptRelationship 0 5 false rp0).code = 500 ∧
    (declineRelationship 0 false rp0).code = 500 ∧
    (cancelBreakupRequest 0 false rx2).code = 500 ∧
    (createRelationship 0 (some 2) "t" "d" "friend" 5 false []).code = 500 := by
  have h := notification_failure_behavior 0 2 5 "t" "d" "friend" rx1 rp0 rx2 []
  exact ⟨h.1, h.2.1, h.2.2.1, h.2.2.2.1, h.2.2.2.2.1, h.2.2.2.2.2.1,
    h.2.2.2.2.2.2.1 rfl rfl, h.2.2.2.2.2.2.2.1 rfl rfl,
    h.2.2.2.2.2.2.2.2.1 rfl rfl rfl, h.2.2.2.2.2.2.2.2.2 (by decide) rfl⟩

/-- C9 counterexample: with a certificate numbered CERT-A already
stored, the pre-save hook assigns a freshly generated colliding number
to a new certificate without consulting existing numbers, and the save
is then rejected by the unique index instead of being retried with a new
number — whereas the collision-check-and-retry assignment described by
the claim would have moved on to the next candidate. -/
theorem certificate_number_no_retry :
    (assignCertificateNumber "CERT-A" certFresh).certificateNumber = some "CERT-A" ∧
    saveCertificate "CERT-A" [certStored] certFresh = ⟨false, [certStored], none⟩ ∧
    specRetryAssign ["CERT-A", "CERT-B"] ["CERT-A"] = some "CERT-B" := by
  decide

/-- C9 amended: the certificate number is generated at creation only
when absent and without any collision check or retry; global uniqueness
of stored certificates is enforced solely by the unique index, which
rejects a colliding save outright; and the number is never changed after
issuance (the pre-save hook leaves a present number alone, and revoke
and the counters do not touch it). -/
theorem certificate_number_unique_by_index (gen : String) (store : List Certificate)
    (c : Certificate) (reason : String) (now : Nat) :
    (certNumbersDistinct store → certNumbersDistinct (saveCertificate gen store c).store) ∧
    (∀ n, c.certificateNumber = some n → assignCertificateNumber gen c = c) ∧
    (Certificate.revoke c reason now).certificateNumber = c.certificateNumber ∧
    (Certificate.incrementView c).certificateNumber = c.certificateNumber ∧
    ((saveCertificate gen store c).ok = true →
      (saveCertificate gen store c).store =
        store ++ [assignCertificateNumber gen c]) := by
  refine ⟨?_, ?_, rfl, rfl, ?_⟩
  · intro hd
    unfold saveCertificate
    by_cases hv : certificateRequiredFieldsOk c = true
    · by_cases hcol : store.any
          (fun d => d.certificateNumber = (assignCertificateNumber gen c).certificateNumber) = true
      · simp [hv, hcol, hd]
      · have hall : ∀ d ∈ store,
            ¬ d.certificateNumber = (assignCertificateNumber gen c).certificateNumber := by
          intro d hdm
          by_contra hcon
          exact hcol (List.any_eq_true.mpr ⟨d, hdm, by simpa using hcon⟩)
        simp only [hv, Bool.not_true, Bool.false_eq_true, if_false, hcol]
        unfold certNumbersDistinct at hd ⊢
        simp only [List.map_append, List.map_cons, List.map_nil]
        rw [List.nodup_append]
        refine ⟨hd, List.nodup_singleton _, ?_⟩
        intro x hx hy
        simp only [List.mem_map] at hx
        obtain ⟨d, hdm, hdx⟩ := hx
        simp only [List.mem_singleton] at hy
        exact hall d hdm (by rw [hdx, hy])
    · simp [hv, hd]
  · intro n hn
    unfold assignCertificateNumber
    simp [hn]
  · intro hok
    unfold saveCertificate at hok ⊢
    by_cases hv : certificateRequiredFieldsOk c = true
    · by_cases hcol : store.any
          (fun d => d.certificateNumber = (assignCertificateNumber gen c).certificateNumber) = true
      · simp [hv, hcol] at hok
      · simp [hv, hcol]
    · simp [hv] at hok

/-- Witness for the amended C9 on the already-numbered certificate
certStored saved into an empty store with a fresh generated value. -/
theorem certificate_number_unique_by_index_witness :
    certNumbersDistinct (saveCertificate "CERT-B" [] certStored).store ∧
    assignCertificateNumber "CERT-B" certStored = certStored ∧
    (Certificate.revoke certStored "fraud" 9).certificateNumber =
      certStored.certificateNumber ∧
    (Certificate.incrementView certStored).certificateNumber =
      certStored.certificateNumber ∧
    (saveCertificate "CERT-B" [] certStored).store =
      [] ++ [assignCertificateNumber "CERT-B" certStored] := by
  have h := certificate_number_unique_by_index "CERT-B" [] certStored "fraud" 9
  exact ⟨h.1 (by simp [certNumbersDistinct]), h.2.1 "CERT-A" rfl, h.2.2.1, h.2.2.2.1,
    h.2.2.2.2 (by decide)⟩

/-- C4, the code evaluated at the failing input: party 0 of the active
relationship rx1 completes the non-completed hard milestone mHard whose
rewards.certificate is set. The milestone is marked completed and the
relationship's milestonesAchieved is incremented from 0 to 1, and the
certificate document the controller builds does carry level gold and
both parties as recipients — but it lacks the schema-required
relatedTo/relatedId paths (the controller passes `relationship` and
`milestone` keys instead, which are not schema paths), so the
certificate save fails validation, no certificate is stored, and the
request reports a 500 server error instead of succeeding. -/
theorem completeMilestone_certificate_reward_fails :
    (completeMilestone 0 9 "CERT-1" true rx1 mHard []).code = 500 ∧
    (completeMilestone 0 9 "CERT-1" true rx1 mHard []).milestone.status = .completed ∧
    (completeMilestone 0 9 "CERT-1" true rx1 mHard []).rel.milestonesAchieved = 1 ∧
    (completeMilestone 0 9 "CERT-1" true rx1 mHard []).certStore = [] ∧
    (milestoneCertificateDoc mHard rx1 9).level = .gold ∧
    (milestoneCertificateDoc mHard rx1 9).recipients.map Recipient.user = [0, 1] ∧
    certificateRequiredFieldsOk (milestoneCertificateDoc mHard rx1 9) = false := by
  decide

/-- In a state satisfying the breakup-marker invariant whose status is
pending, active or archived, breakupRequestedBy is unset. -/
theorem breakupInvB_none_of {r : Relationship} (hi : breakupInvB r = true)
    (hs : r.status = .pending ∨ r.status = .active ∨ r.status = .archived) :
    r.breakupRequestedBy = none := by
  unfold breakupInvB at hi
  rcases hs with h | h | h <;> rw [h] at hi <;> simpa using hi

/-- In a state satisfying the breakup-marker invariant whose status is
requested_breakup or ended, breakupRequestedBy holds a party. -/
theorem breakupInvB_party_of {r : Relationship} (hi : breakupInvB r = true)
    (hs : r.status = .requestedBreakup ∨ r.status = .ended) :
    ∃ w, r.breakupRequestedBy = some w ∧ (w = r.initiator ∨ w = r.partner) := by
  unfold breakupInvB at hi
  rcases hs with h | h <;> rw [h] at hi <;>
    (cases hb : r.breakupRequestedBy with
     | none => rw [hb] at hi; simp at hi
     | some w =>
        rw [hb] at hi
        simp only [Bool.or_eq_true, decide_eq_true_eq] at hi
        exact ⟨w, rfl, hi⟩)

/-- Every controller step preserves the breakup-marker invariant. -/
theorem breakupInvB_step {r r' : Relationship} (h : RelStep r r')
    (hi : breakupInvB r = true) : breakupInvB r' = true := by
  cases h with
  | accept u t ok h =>
      unfold acceptRelationship at h
      split_ifs at h with h1 h2 h3 <;> simp at h <;> subst h
      · exact hi
      · exact hi
      all_goals
        have hp : r.status = RelStatus.pending := not_not.mp h2
        have hb : r.breakupRequestedBy = none := breakupInvB_none_of hi (Or.inl hp)
        simp [breakupInvB, hb]
  | update u ti de h =>
      unfold updateRelationship at h
      split_ifs at h <;> simp at h <;> subst h
      · exact hi
      · exact hi
      · exact hi
  | request u ok h =>
      unfold requestBreakup at h
      split_ifs at h with h1 h2 <;> simp at h <;> subst h
      · exact hi
      · exact hi
      · have h1' : includesUser r u = true := by
          cases hiu : includesUser r u with
          | true => rfl
          | false => exact absurd (by rw [hiu]; rfl) h1
        simp only [includesUser, Bool.or_eq_true, decide_eq_true_eq] at h1'
        simp only [breakupInvB, Bool.or_eq_true, decide_eq_true_eq]
        omega
  | confirm u t ok h =>
      unfold confirmBreakup at h
      split_ifs at h with h1 h2
      · simp at h; subst h; exact hi
      · simp at h; subst h; exact hi
      · have hp : r.status = RelStatus.requestedBreakup := not_not.mp h2
        obtain ⟨w, hw, hwp⟩ := breakupInvB_party_of hi (Or.inl hp)
        rw [hw] at h
        simp at h
        split_ifs at h <;> simp at h <;> subst h <;>
          first
          | exact hi
          | (simp only [breakupInvB, hw, Bool.or_eq_true, decide_eq_true_eq]
             exact hwp)
  | cancel u ok h =>
      unfold cancelBreakupRequest at h
      split_ifs at h with h1 h2
      · simp at h; subst h; exact hi
      · simp at h; subst h; exact hi
      all_goals
        have hp : r.status = RelStatus.requestedBreakup := not_not.mp h2
      all_goals
        obtain ⟨w, hw, hwp⟩ := breakupInvB_party_of hi (Or.inl hp)
        rw [hw] at h
        simp at h
        split_ifs at h <;> simp at h <;> subst h <;>
          first
          | exact hi
          | simp [breakupInvB]
  | archive u t h =>
      unfold deleteRelationship at h
      split_ifs at h with h1 h2
      · simp at h; subst h; exact hi
      · simp at h; subst h
        have hb : r.breakupRequestedBy = none :=
          breakupInvB_none_of hi (Or.inr (Or.inl h2))
        simp [breakupInvB, hb]
  | activity u relId now ti ty c rs ok =>
      unfold createActivity
      split_ifs <;> exact hi
  | milestone u now gen ok m cs =>
      simp only [completeMilestone]
      split_ifs <;> exact hi
  | activityDel u a =>
      unfold deleteActivity
      split_ifs <;> exact hi
  | newCert cid =>
      exact hi

/-- The ended state rx3 of the happy-path chain is reachable. -/
theorem rx3_reachable : RelReachable rx3 := by
  refine ⟨0, 1, 1, "Friendship", "", "friend", by decide, ?_⟩
  have s1 : RelStep rx0 rx1 := RelStep.accept 1 2 true (by decide)
  have s2 : RelStep rx1 rx2 := RelStep.request 0 true (by decide)
  have s3 : RelStep rx2 rx3 := RelStep.confirm 1 3 true (by decide)
  exact Relation.ReflTransGen.tail
    (Relation.ReflTransGen.tail (Relation.ReflTransGen.tail .refl s1) s2) s3

/-- C7 counterexample: the reachable relationship rx3 — created, then
accepted, then breakup-requested by user 0, then breakup-confirmed by
user 1 — has status ended while breakupRequestedBy is still set to user
0, because confirmBreakup does not clear the field; this contradicts the
claim that no relationship with status ended has breakupRequestedBy
set. -/
theorem ended_retains_breakup_marker :
    ∃ r : Relationship, RelReachable r ∧ r.status = .ended ∧
      r.breakupRequestedBy = some 0 :=
  ⟨rx3, rx3_reachable, rfl, rfl⟩

/-- C7 amended: over all reachable relationship states,
breakupRequestedBy is unset while the status is pending, active or
archived, and holds one of the two parties while the status is
requested_breakup or ended — requestBreakup sets it on entering
requested_breakup and cancelBreakupRequest clears it, but confirmBreakup
retains it on the transition to ended. -/
theorem breakup_marker_invariant (r : Relationship) (h : RelReachable r) :
    breakupInvB r = true := by
  obtain ⟨a, b, t, ti, de, ty, hab, hsteps⟩ := h
  induction hsteps with
  | refl => simp [breakupInvB, newRelationship]
  | tail _ hstep ih => exact breakupInvB_step hstep ih

/-- Witness for the amended C7 at the reachable ended state rx3. -/
theorem breakup_marker_invariant_witness :
    RelReachable rx3 ∧ breakupInvB rx3 = true :=
  ⟨rx3_reachable, breakup_marker_invariant rx3 rx3_reachable⟩

end Relatio
